import Mathlib

/-!
Verification of the FastAISearch (OptivAI) record store, shallowly embedded
from `src/main.py`.  Python strings are modelled as Lean `String` (ASCII
lowering and core whitespace; Python handles a few more Unicode cases that
never arise here), Python/JSON values as the inductive `JVal`, a Python dict
as an association list with first-key-wins lookup, and a raised exception as
`Except.error`.  Floating-point JSON numbers are outside the model.
-/

namespace FastAISearch

/-! ### Python string primitives -/

/-- Leading-whitespace removal on character lists (`str.strip`, left half). -/
def trimLeftL (l : List Char) : List Char := l.dropWhile Char.isWhitespace

/-- Trailing-whitespace removal on character lists (`str.strip`, right half). -/
def trimRightL (l : List Char) : List Char :=
  (l.reverse.dropWhile Char.isWhitespace).reverse

/-- `str.strip()`: drop leading and trailing whitespace. -/
def pyStrip (s : String) : String := ⟨trimRightL (trimLeftL s.data)⟩

/-- `str.lower()` (ASCII). -/
def pyLower (s : String) : String := ⟨s.data.map Char.toLower⟩

/-- Python `a in b` on strings: `a` occurs as a contiguous substring of `b`. -/
def pyInStr (a b : String) : Bool := decide (a.data <:+: b.data)

/-- A single-quote character, written by code point. -/
def sqChar : Char := Char.ofNat 39

def sq : String := ⟨[sqChar]⟩

def obraceStr : String := ⟨[Char.ofNat 123]⟩

def cbraceStr : String := ⟨[Char.ofNat 125]⟩

/-! ### Python / JSON values -/

/-- A Python value as it can occur in the JSON store or a request payload.
JSON floats are not modelled; none of the verified behaviour involves them. -/
inductive JVal where
  | null : JVal
  | bool (b : Bool) : JVal
  | int (n : Int) : JVal
  | str (s : String) : JVal
  | arr (xs : List JVal) : JVal
  | obj (kvs : List (String × JVal)) : JVal

/-- Python truthiness (`bool(v)`) for the modelled values. -/
def truthy : JVal → Bool
  | .null => false
  | .bool b => b
  | .int n => n != 0
  | .str s => s != ""
  | .arr xs => !xs.isEmpty
  | .obj kvs => !kvs.isEmpty

/-- Python `a or b`: `a` if truthy, else `b`. -/
def pyOr (a b : JVal) : JVal := if truthy a then a else b

mutual

/-- Python `repr` of a value (as used by `str` on lists/dicts).  String
escaping inside the quotes is not modelled; no verified behaviour depends
on the rendering of nested containers. -/
def pyReprOf : JVal → String
  | .null => "None"
  | .bool true => "True"
  | .bool false => "False"
  | .int n => toString n
  | .str s => sq ++ s ++ sq
  | .arr xs => "[" ++ reprItems xs ++ "]"
  | .obj kvs => obraceStr ++ reprFields kvs ++ cbraceStr

/-- Comma-separated `repr`s of list items. -/
def reprItems : List JVal → String
  | [] => ""
  | [x] => pyReprOf x
  | x :: xs => pyReprOf x ++ ", " ++ reprItems xs

/-- Comma-separated `repr`s of dict entries. -/
def reprFields : List (String × JVal) → String
  | [] => ""
  | [kv] => sq ++ kv.1 ++ sq ++ ": " ++ pyReprOf kv.2
  | kv :: kvs => sq ++ kv.1 ++ sq ++ ": " ++ pyReprOf kv.2 ++ ", " ++ reprFields kvs

end

/-- Python `str(v)`. -/
def pyStrOf : JVal → String
  | .null => "None"
  | .bool true => "True"
  | .bool false => "False"
  | .int n => toString n
  | .str s => s
  | .arr xs => pyReprOf (.arr xs)
  | .obj kvs => pyReprOf (.obj kvs)

/-! ### Python `int()` coercion -/

/-- A raised Python exception, by class.  `UnicodeDecodeError` subclasses
`ValueError` but is neither a `json.JSONDecodeError` nor an `OSError`. -/
inductive PyErr where
  | valueError : PyErr
  | typeError : PyErr
  | unicodeDecodeError : PyErr
deriving DecidableEq

/-- Digit-run check after the first digit: digits with single interior
underscores (`int("1_2") = 12`, `int("1__2")` and `int("1_")` fail). -/
def intLitTail : List Char → Bool
  | [] => true
  | c :: rest =>
    if c == '_' then
      match rest with
      | [] => false
      | d :: rest2 => d.isDigit && intLitTail rest2
    else c.isDigit && intLitTail rest

/-- Digit-run check: nonempty, starts with a digit, underscores only between
digits. -/
def intLitOK : List Char → Bool
  | [] => false
  | c :: rest => c.isDigit && intLitTail rest

def digitsVal (l : List Char) : Int :=
  l.foldl (fun acc c => acc * 10 + ((c.toNat - 48 : Nat) : Int)) 0

def digitsToInt (l : List Char) : Option Int :=
  if intLitOK l then some (digitsVal (l.filter (fun c => c != '_'))) else none

/-- Python `int(s)` for strings: optional surrounding whitespace, optional
sign, then a digit run. -/
def pyIntOfStr (s : String) : Option Int :=
  match trimRightL (trimLeftL s.data) with
  | [] => none
  | c :: rest =>
    if c == '+' then digitsToInt rest
    else if c == '-' then (digitsToInt rest).map (fun n => -n)
    else digitsToInt (c :: rest)

/-- Python `int(v)`: ints pass through, bools map to 0/1, numeric strings
parse (else `ValueError`), anything else is a `TypeError`. -/
def pyInt : JVal → Except PyErr Int
  | .int n => .ok n
  | .bool b => .ok (if b then 1 else 0)
  | .str s =>
    match pyIntOfStr s with
    | some n => .ok n
    | none => .error .valueError
  | .null => .error .typeError
  | .arr _ => .error .typeError
  | .obj _ => .error .typeError

/-! ### Raw records (Python dicts) -/

/-- A Python dict with string keys, as decoded from JSON or built by the
HTTP layer. -/
abbrev RawDict := List (String × JVal)

/-- `raw.get(k)` — `None` when the key is absent. -/
def rawGet (raw : RawDict) (k : String) : JVal :=
  match raw.find? (fun kv => kv.1 == k) with
  | some kv => kv.2
  | none => .null

/-- `raw.get(k, d)`. -/
def rawGetD (raw : RawDict) (k : String) (d : JVal) : JVal :=
  match raw.find? (fun kv => kv.1 == k) with
  | some kv => kv.2
  | none => d

/-! ### The canonical Tool schema and `normalize_tool` -/

/-- The canonical schema produced by `normalize_tool` (`main.py:50`). -/
structure Tool where
  id : Int
  name : String
  description : String
  category : String
  pricing : String
  tags : List String
  features : List String
  website : String
  published : Bool
deriving DecidableEq

/-- `_coerce_str_list` (`main.py:28`): a list is str-ed, trimmed and
empty-filtered elementwise; a string is split on commas, trimmed and
empty-filtered; anything else yields `[]`. -/
def coerce_str_list : JVal → List String
  | .arr xs => (xs.map (fun item => pyStrip (pyStrOf item))).filter (fun s => s != "")
  | .str s =>
    ((s.data.splitOn ',').map (fun part => pyStrip ⟨part⟩)).filter (fun p => p != "")
  | _ => []

/-- `_coerce_bool` (`main.py:36`). -/
def coerce_bool (v : JVal) (default : Bool) : Bool :=
  match v with
  | .null => default
  | .bool b => b
  | .str s =>
    let lowered := pyLower (pyStrip s)
    if lowered == "true" || lowered == "1" || lowered == "yes" || lowered == "y"
        || lowered == "on" then true
    else if lowered == "false" || lowered == "0" || lowered == "no"
        || lowered == "n" || lowered == "off" then false
    else truthy (.str s)
  | v => truthy v

/-- `normalize_tool` (`main.py:50`): field-by-field coercion to the canonical
schema.  Only the `id` coercion (`int(raw.get("id", 0) or 0)`) can raise; it
is evaluated first, as in the Python dict literal. -/
def normalize_tool (raw : RawDict) : Except PyErr Tool :=
  match pyInt (pyOr (rawGetD raw "id" (.int 0)) (.int 0)) with
  | .error e => .error e
  | .ok idv =>
    .ok {
      id := idv
      name := pyStrip (pyStrOf (pyOr (rawGet raw "name")
        (pyOr (rawGet raw "title") (.str ""))))
      description := pyStrip (pyStrOf (pyOr (rawGet raw "description")
        (pyOr (rawGet raw "short_desc") (.str ""))))
      category := pyStrip (pyStrOf (pyOr (rawGet raw "category")
        (pyOr (rawGet raw "type") (.str ""))))
      pricing := pyStrip (pyStrOf (pyOr (rawGet raw "pricing")
        (pyOr (rawGet raw "cost") (.str ""))))
      tags := coerce_str_list (pyOr (rawGet raw "tags")
        (pyOr (rawGet raw "keywords") (.arr [])))
      features := coerce_str_list (pyOr (rawGet raw "features")
        (pyOr (rawGet raw "capabilities") (.arr [])))
      website := pyStrip (pyStrOf (pyOr (rawGet raw "website")
        (pyOr (rawGet raw "url") (.str ""))))
      published := coerce_bool (rawGet raw "published") true }

/-- The canonical dict a `Tool` is stored as (the shape `save_tools` hands
back to `normalize_tool`). -/
def Tool.toRaw (t : Tool) : RawDict :=
  [("id", .int t.id),
   ("name", .str t.name),
   ("description", .str t.description),
   ("category", .str t.category),
   ("pricing", .str t.pricing),
   ("tags", .arr (t.tags.map .str)),
   ("features", .arr (t.features.map .str)),
   ("website", .str t.website),
   ("published", .bool t.published)]

/-- The first truthy value of a candidate list, else a default: the
resolution rule the alias chains of `normalize_tool` actually implement. -/
def firstTruthy (vs : List JVal) (d : JVal) : JVal := (vs.find? truthy).getD d

/-! ### Reading the backing file -/

/-- Outcome of attempting to open, UTF-8-decode and JSON-parse
`data/tools.json`: the file may be absent; `json.load` may raise
`json.JSONDecodeError` on malformed JSON, or `UnicodeDecodeError` when the
file bytes are not valid UTF-8 (a `ValueError` that is neither a
`JSONDecodeError` nor an `OSError`); the read itself may raise `OSError`;
or parsing yields some JSON value. -/
inductive FileOutcome where
  | absent : FileOutcome
  | jsonDecodeError : FileOutcome
  | unicodeDecodeError : FileOutcome
  | osError : FileOutcome
  | ok (v : JVal) : FileOutcome

/-- `read_tools_file` (`main.py:70`): an absent file degrades to `[]`; the
except clauses catch exactly `json.JSONDecodeError` and `OSError`, which
degrade to `[]` (logged); a `UnicodeDecodeError` raised inside `json.load`
on non-UTF-8 file bytes matches neither clause and propagates to the
caller; a decoded non-list degrades to `[]`; a decoded list is returned
as-is. -/
def read_tools_file : FileOutcome → Except PyErr (List JVal)
  | .absent => .ok []
  | .jsonDecodeError => .ok []
  | .unicodeDecodeError => .error .unicodeDecodeError
  | .osError => .ok []
  | .ok (.arr xs) => .ok xs
  | .ok _ => .ok []

/-- `load_tools` (`main.py:92`): normalize every dict element of the raw
list, skipping non-dict elements.  Both `read_tools_file` (on a non-UTF-8
file) and `normalize_tool` may raise, so the whole load may raise. -/
def load_tools (f : FileOutcome) : Except PyErr (List Tool) :=
  match read_tools_file f with
  | .error e => .error e
  | .ok raw =>
    (raw.filterMap (fun v =>
      match v with
      | .obj kvs => some kvs
      | _ => none)).mapM normalize_tool

/-! ### Persisting (`save_tools`) at the canonical level -/

/-- The action of `normalize_tool` on a record that is already in canonical
shape (every key present with its canonical type): strings are re-stripped,
string lists re-trimmed and re-filtered, `id` and `published` kept.
`normalize_tool_toRaw` below proves this agrees with `normalize_tool`. -/
def renorm (t : Tool) : Tool :=
  { id := t.id
    name := pyStrip t.name
    description := pyStrip t.description
    category := pyStrip t.category
    pricing := pyStrip t.pricing
    tags := (t.tags.map pyStrip).filter (fun s => s != "")
    features := (t.features.map pyStrip).filter (fun s => s != "")
    website := pyStrip t.website
    published := t.published }

/-- `save_tools` (`main.py:113`) re-normalizes every record before the
locked atomic write; at the canonical level the persisted collection is the
elementwise renormalization. -/
def save_tools (tools : List Tool) : List Tool := tools.map renorm

/-! ### Request payloads -/

/-- `ToolCreate` (`main.py:124`): all required fields typed by pydantic. -/
structure ToolCreate where
  name : String
  description : String
  category : String
  pricing : String
  tags : List String := []
  features : List String := []
  website : String
  published : Bool := true
deriving DecidableEq

/-- `ToolUpdate` (`main.py:139`): every field optional; `none` models a
field not supplied (`exclude_unset`). -/
structure ToolUpdate where
  name : Option String := none
  description : Option String := none
  category : Option String := none
  pricing : Option String := none
  tags : Option (List String) := none
  features : Option (List String) := none
  website : Option String := none
  published : Option Bool := none
deriving DecidableEq

/-- `{**tool, **update_data}` with `update_data = updates.dict(exclude_unset
= True)`: supplied fields overwrite, `id` has no counterpart in `ToolUpdate`
and is untouched. -/
def applyUpdate (t : Tool) (u : ToolUpdate) : Tool :=
  { id := t.id
    name := u.name.getD t.name
    description := u.description.getD t.description
    category := u.category.getD t.category
    pricing := u.pricing.getD t.pricing
    tags := u.tags.getD t.tags
    features := u.features.getD t.features
    website := u.website.getD t.website
    published := u.published.getD t.published }

/-! ### Query helpers and public endpoints

Each endpoint is parameterized by the in-memory collection produced by
`load_tools`; `HTTPException` outcomes are the `Except.error` branch. -/

/-- An `HTTPException(status_code, detail)`. -/
structure HTTPException where
  status : Nat
  detail : String
deriving DecidableEq

/-- `get_published_tools` (`main.py:156`). -/
def get_published_tools (store : List Tool) : List Tool :=
  store.filter (fun t => t.published)

/-- The search predicate of `get_tools` (`main.py:186`): case-insensitive
containment in name, description or any tag. -/
def searchMatch (s : String) (t : Tool) : Bool :=
  pyInStr (pyLower s) (pyLower t.name)
    || pyInStr (pyLower s) (pyLower t.description)
    || t.tags.any (fun tag => pyInStr (pyLower s) (pyLower tag))

/-- The category predicate of `get_tools` (`main.py:194`): exact
case-insensitive equality. -/
def categoryMatch (c : String) (t : Tool) : Bool :=
  pyLower t.category == pyLower c

/-- The pricing predicate of `get_tools` (`main.py:200`): the query occurs
case-insensitively inside the stored `pricing` value. -/
def pricingMatch (q : String) (t : Tool) : Bool :=
  pyInStr (pyLower q) (pyLower t.pricing)

/-- `if q:` guard around a filter: an absent or empty query leaves the list
untouched (Python string truthiness). -/
def applyIfTruthy (q : Option String) (f : String → Tool → Bool)
    (tools : List Tool) : List Tool :=
  match q with
  | none => tools
  | some s => if s == "" then tools else tools.filter (f s)

/-- `get_tools` (`main.py:175`): published-only view filtered by search,
then category, then pricing. -/
def get_tools (store : List Tool)
    (search category pricing : Option String) : List Tool :=
  applyIfTruthy pricing pricingMatch
    (applyIfTruthy category categoryMatch
      (applyIfTruthy search searchMatch (get_published_tools store)))

/-- `get_tool` (`main.py:209`): first published record with the requested
id, else 404. -/
def get_tool (store : List Tool) (tool_id : Int) : Except HTTPException Tool :=
  match (get_published_tools store).find? (fun t => t.id == tool_id) with
  | some t => .ok t
  | none => .error ⟨404, "Tool not found"⟩

/-- The id-list parse of `compare_tools` (`main.py:222`):
`[int(id.strip()) for id in ids.split(",")]`, where any failing `int`
raises `ValueError`. -/
def parseIds (ids : String) : Except PyErr (List Int) :=
  (ids.data.splitOn ',').mapM (fun part =>
    match pyIntOfStr (pyStrip ⟨part⟩) with
    | some n => .ok n
    | none => .error .valueError)

/-- `compare_tools` (`main.py:218`): parse the ids (400 on failure), reject
more than 3 ids (400), and only then read the store and select the
published records whose id is in the list. -/
def compare_tools (ids : String) (store : List Tool) :
    Except HTTPException (List Tool) :=
  match parseIds ids with
  | .error _ => .error ⟨400, "Invalid tool IDs"⟩
  | .ok tool_ids =>
    if tool_ids.length > 3 then
      .error ⟨400, "Maximum 3 tools can be compared"⟩
    else
      .ok ((get_published_tools store).filter (fun t =>
        tool_ids.contains t.id))

/-- `get_categories` (`main.py:236`): sorted distinct non-empty categories
of the published view.  (Python builds a set, then sorts.) -/
def get_categories (store : List Tool) : List String :=
  (((get_published_tools store).map (fun t => t.category)).filter
    (fun c => c != "")).dedup.mergeSort (fun a b => a ≤ b)

/-- `admin_get_tools` (`main.py:243`). -/
def admin_get_tools (store : List Tool) (published : Option Bool) : List Tool :=
  match published with
  | none => store
  | some b => store.filter (fun t => t.published == b)

/-- Python `max((t["id"] for t in tools), default=0)`: the running maximum
of a nonempty list. -/
def maxAux (acc : Int) : List Int → Int
  | [] => acc
  | y :: ys => maxAux (max acc y) ys

/-- `max(l, default=d)`. -/
def pyMaxD (l : List Int) (d : Int) : Int :=
  match l with
  | [] => d
  | x :: xs => maxAux x xs

/-- `admin_create_tool` (`main.py:252`): assign `max(ids, default=0) + 1`,
append, persist via `save_tools`, and echo `normalize_tool(new_tool)`. -/
def admin_create_tool (store : List Tool) (p : ToolCreate) :
    List Tool × Tool :=
  let next_id := pyMaxD (store.map (fun t => t.id)) 0 + 1
  let new_tool : Tool :=
    { id := next_id, name := p.name, description := p.description,
      category := p.category, pricing := p.pricing, tags := p.tags,
      features := p.features, website := p.website, published := p.published }
  (save_tools (store ++ [new_tool]), renorm new_tool)

/-- The ids handed out by a sequence of creates, each running against the
store left by the previous one. -/
def createManyIds (store : List Tool) : List ToolCreate → List Int
  | [] => []
  | p :: ps =>
    let r := admin_create_tool store p
    r.2.id :: createManyIds r.1 ps

/-- The record-replacement loop of `admin_update_tool` (`main.py:267`):
find the first record with the requested id, merge the supplied fields into
it, and also return the merged record (pre-save) for the echo. -/
def updateGo (u : ToolUpdate) (i : Int) : List Tool → Option (List Tool × Tool)
  | [] => none
  | t :: rest =>
    if t.id == i then
      some (applyUpdate t u :: rest, applyUpdate t u)
    else
      match updateGo u i rest with
      | none => none
      | some r => some (t :: r.1, r.2)

/-- `admin_update_tool` (`main.py:263`): 404 when no record matches, else
persist the mutated list via `save_tools` and echo
`normalize_tool(updated_tool)`. -/
def admin_update_tool (store : List Tool) (tool_id : Int) (u : ToolUpdate) :
    Except HTTPException (List Tool × Tool) :=
  match updateGo u tool_id store with
  | none => .error ⟨404, "Tool not found"⟩
  | some r => .ok (save_tools r.1, renorm r.2)

/-- `admin_delete_tool` (`main.py:276`). -/
def admin_delete_tool (store : List Tool) (tool_id : Int) :
    Except HTTPException (List Tool) :=
  let remaining := store.filter (fun t => t.id != tool_id)
  if remaining.length == store.length then .error ⟨404, "Tool not found"⟩
  else .ok (save_tools remaining)

/-! ### Two concurrent create transactions

`admin_create_tool` runs `load_tools` (no lock), computes the new list and
id in memory, and only then calls `save_tools`, which takes the exclusive
flock around the write alone (`main.py:113`).  So a create transaction is
two atomic events: an unlocked read(+compute) of the file, and a locked
atomic replacement of the file.  Two writers A and B interleave these
events in any order that puts each read before its own write. -/

structure SysState where
  file : List Tool
  localA : Option (List Tool × Int)
  localB : Option (List Tool × Int)
  doneA : Option Int
  doneB : Option Int
deriving DecidableEq

/-- The four atomic events of two concurrent creates. -/
inductive Act where
  | readA : Act
  | writeA : Act
  | readB : Act
  | writeB : Act
deriving DecidableEq

/-- The read+compute half of a create: snapshot the file, compute the new
collection and the assigned id. -/
def computeCreate (file : List Tool) (p : ToolCreate) : List Tool × Int :=
  let r := admin_create_tool file p
  (r.1, r.2.id)

/-- One atomic event.  A read is enabled once per transaction; a write is
enabled after its read and atomically replaces the file (the flock in
`save_tools` serializes the writes themselves, which the atomicity of the
write event models). -/
def stepTx (pA pB : ToolCreate) (s : SysState) : Act → SysState
  | .readA =>
    match s.localA, s.doneA with
    | none, none => { s with localA := some (computeCreate s.file pA) }
    | _, _ => s
  | .writeA =>
    match s.localA with
    | some r => { s with file := r.1, localA := none, doneA := some r.2 }
    | none => s
  | .readB =>
    match s.localB, s.doneB with
    | none, none => { s with localB := some (computeCreate s.file pB) }
    | _, _ => s
  | .writeB =>
    match s.localB with
    | some r => { s with file := r.1, localB := none, doneB := some r.2 }
    | none => s

/-- Run a schedule from the empty store. -/
def runTx (pA pB : ToolCreate) (acts : List Act) : SysState :=
  acts.foldl (stepTx pA pB) ⟨[], none, none, none, none⟩

/-- A concrete create payload used in the concurrency scenarios. -/
def demoCreateA : ToolCreate :=
  { name := "Alpha", description := "first", category := "NLP",
    pricing := "free", website := "a.example" }

/-- A second concrete create payload. -/
def demoCreateB : ToolCreate :=
  { name := "Beta", description := "second", category := "Vision",
    pricing := "paid", website := "b.example" }

/-! ### Demo records for concrete witnesses -/

/-- A published record whose pricing is `"free/paid"`. -/
def toolFreePaid : Tool :=
  { id := 1, name := "Alpha", description := "", category := "NLP",
    pricing := "free/paid", tags := [], features := [],
    website := "a.example", published := true }

/-- A published record whose pricing is `"paid"`. -/
def toolPaidOnly : Tool :=
  { id := 2, name := "Beta", description := "", category := "Vision",
    pricing := "paid", tags := [], features := [],
    website := "b.example", published := true }

/-- An unpublished record. -/
def toolHidden : Tool :=
  { id := 5, name := "Ghost", description := "", category := "NLP",
    pricing := "free", tags := [], features := [],
    website := "g.example", published := false }

/-! ### Helper lemmas: stripping is idempotent -/

theorem dropWhile_dropWhile (p : Char → Bool) (l : List Char) :
    (l.dropWhile p).dropWhile p = l.dropWhile p := by
  induction l with
  | nil => rfl
  | cons c rest ih =>
    by_cases h : p c = true
    · simpa [List.dropWhile_cons, h] using ih
    · simp [List.dropWhile_cons, h]

theorem trimLeftL_idem (l : List Char) : trimLeftL (trimLeftL l) = trimLeftL l :=
  dropWhile_dropWhile _ l

theorem trimRightL_idem (l : List Char) :
    trimRightL (trimRightL l) = trimRightL l := by
  simp [trimRightL, dropWhile_dropWhile]

theorem dropWhile_head_not (p : Char → Bool) (l : List Char) (c : Char)
    (rest : List Char) (h : l.dropWhile p = c :: rest) : p c = false := by
  induction l with
  | nil => simp [List.dropWhile] at h
  | cons a t ih =>
    by_cases ha : p a = true
    · exact ih (by simpa [List.dropWhile_cons, ha] using h)
    · simp [List.dropWhile_cons, ha] at h
      simp [← h.1, eq_false_of_ne_true ha]

theorem trimRightL_sublist_front (l : List Char) :
    ∃ suf, l = trimRightL l ++ suf := by
  obtain ⟨pre, hpre⟩ : ∃ pre, l.reverse = pre ++ l.reverse.dropWhile Char.isWhitespace := by
    induction l.reverse with
    | nil => exact ⟨[], rfl⟩
    | cons a t ih =>
      by_cases ha : Char.isWhitespace a = true
      · obtain ⟨pre, hp⟩ := ih
        exact ⟨a :: pre, by simp [List.dropWhile_cons, ha]; exact hp⟩
      · exact ⟨[], by simp [List.dropWhile_cons, ha]⟩
  refine ⟨pre.reverse, ?_⟩
  conv_lhs => rw [← l.reverse_reverse, hpre]
  simp [trimRightL]

theorem trimLeftL_trimRightL_of_trimmed (l : List Char)
    (h : trimLeftL l = l) : trimLeftL (trimRightL l) = trimRightL l := by
  obtain ⟨suf, hsuf⟩ := trimRightL_sublist_front l
  cases htr : trimRightL l with
  | nil => rfl
  | cons c rest =>
    have hl : l = c :: (rest ++ suf) := by rw [hsuf, htr]; simp
    have hc : Char.isWhitespace c = false := by
      have := h
      rw [hl] at this
      unfold trimLeftL at this
      by_cases hw : Char.isWhitespace c = true
      · exfalso
        rw [List.dropWhile_cons_of_pos hw] at this
        have hle := (List.dropWhile_sublist (l := rest ++ suf)
          (p := Char.isWhitespace)).length_le
        rw [this] at hle
        simp [List.length_cons] at hle
      · exact eq_false_of_ne_true hw
    simp [trimLeftL, List.dropWhile_cons, hc]

theorem pyStrip_idem (s : String) : pyStrip (pyStrip s) = pyStrip s := by
  unfold pyStrip
  have h1 : trimLeftL (trimRightL (trimLeftL s.data)) = trimRightL (trimLeftL s.data) :=
    trimLeftL_trimRightL_of_trimmed _ (trimLeftL_idem s.data)
  simp [h1, trimRightL_idem]

theorem pyStrip_empty : pyStrip "" = "" := rfl

/-! ### Helper lemmas: `normalize_tool` on canonical records -/

theorem pyInt_int_or (n : Int) : pyInt (pyOr (.int n) (.int 0)) = .ok n := by
  by_cases h : n = 0 <;> simp [pyOr, truthy, pyInt, h]

theorem strField_or (s : String) :
    pyStrip (pyStrOf (pyOr (.str s) (pyOr .null (.str "")))) = pyStrip s := by
  by_cases h : s = "" <;> simp [pyOr, truthy, pyStrOf, h]

theorem listField_or (l : List String) :
    coerce_str_list (pyOr (.arr (l.map .str)) (pyOr .null (.arr []))) =
      (l.map pyStrip).filter (fun s => s != "") := by
  by_cases h : l = []
  · subst h; rfl
  · have : truthy (.arr (l.map .str)) = true := by
      simp [truthy, List.isEmpty_eq_true, h]
    simp only [pyOr, this, if_pos]
    simp only [coerce_str_list, List.map_map]
    congr 1

theorem normalize_tool_toRaw (t : Tool) :
    normalize_tool (Tool.toRaw t) = .ok (renorm t) := by
  have hid : rawGetD (Tool.toRaw t) "id" (.int 0) = .int t.id := rfl
  have hname : rawGet (Tool.toRaw t) "name" = .str t.name := rfl
  have htitle : rawGet (Tool.toRaw t) "title" = .null := rfl
  have hdesc : rawGet (Tool.toRaw t) "description" = .str t.description := rfl
  have hshort : rawGet (Tool.toRaw t) "short_desc" = .null := rfl
  have hcat : rawGet (Tool.toRaw t) "category" = .str t.category := rfl
  have htype : rawGet (Tool.toRaw t) "type" = .null := rfl
  have hpricing : rawGet (Tool.toRaw t) "pricing" = .str t.pricing := rfl
  have hcost : rawGet (Tool.toRaw t) "cost" = .null := rfl
  have htags : rawGet (Tool.toRaw t) "tags" = .arr (t.tags.map .str) := rfl
  have hkw : rawGet (Tool.toRaw t) "keywords" = .null := rfl
  have hfeat : rawGet (Tool.toRaw t) "features" = .arr (t.features.map .str) := rfl
  have hcap : rawGet (Tool.toRaw t) "capabilities" = .null := rfl
  have hweb : rawGet (Tool.toRaw t) "website" = .str t.website := rfl
  have hurl : rawGet (Tool.toRaw t) "url" = .null := rfl
  have hpub : rawGet (Tool.toRaw t) "published" = .bool t.published := rfl
  unfold normalize_tool
  rw [hid, hname, htitle, hdesc, hshort, hcat, htype, hpricing, hcost, htags,
    hkw, hfeat, hcap, hweb, hurl, hpub, pyInt_int_or]
  simp only [strField_or, listField_or]
  rfl

theorem mem_coerce_fixed (v : JVal) (x : String) (hx : x ∈ coerce_str_list v) :
    pyStrip x = x ∧ (x != "") = true := by
  cases v with
  | arr xs =>
    simp only [coerce_str_list, List.mem_filter, List.mem_map] at hx
    obtain ⟨⟨y, _, hy⟩, hne⟩ := hx
    exact ⟨by rw [← hy, pyStrip_idem], hne⟩
  | str s =>
    simp only [coerce_str_list, List.mem_filter, List.mem_map] at hx
    obtain ⟨⟨y, _, hy⟩, hne⟩ := hx
    exact ⟨by rw [← hy, pyStrip_idem], hne⟩
  | null => simp [coerce_str_list] at hx
  | bool b => simp [coerce_str_list] at hx
  | int n => simp [coerce_str_list] at hx
  | obj kvs => simp [coerce_str_list] at hx

theorem restrip_fixed (l : List String)
    (h : ∀ x ∈ l, pyStrip x = x ∧ (x != "") = true) :
    (l.map pyStrip).filter (fun s => s != "") = l := by
  induction l with
  | nil => rfl
  | cons x rest ih =>
    obtain ⟨hs, hne⟩ := h x (by simp)
    simp only [List.map_cons, List.filter_cons, hs, hne, if_pos]
    exact congrArg (x :: ·) (ih fun y hy => h y (by simp [hy]))

/-- Every successful output of `normalize_tool` is a fixed point of the
canonical renormalization. -/
theorem renorm_fix_of_normalize (raw : RawDict) (t : Tool)
    (h : normalize_tool raw = .ok t) : renorm t = t := by
  unfold normalize_tool at h
  cases hp : pyInt (pyOr (rawGetD raw "id" (.int 0)) (.int 0)) with
  | error e => rw [hp] at h; exact absurd h (by simp)
  | ok n =>
    rw [hp] at h
    injection h with h
    subst h
    unfold renorm
    simp only [Tool.mk.injEq, true_and, and_true]
    exact ⟨pyStrip_idem _, pyStrip_idem _, pyStrip_idem _, pyStrip_idem _,
      restrip_fixed _ (fun x hx => mem_coerce_fixed _ x hx),
      restrip_fixed _ (fun x hx => mem_coerce_fixed _ x hx),
      pyStrip_idem _⟩

/-! ### Helper lemmas: alias resolution -/

theorem pyOr_firstTruthy (a b d : JVal) :
    pyOr a (pyOr b d) = firstTruthy [a, b] d := by
  cases ha : truthy a with
  | true => simp [pyOr, firstTruthy, List.find?, ha]
  | false => cases hb : truthy b <;> simp [pyOr, firstTruthy, List.find?, ha, hb]

/-! ### Helper lemmas: id assignment -/

theorem le_maxAux (acc : Int) (l : List Int) : acc ≤ maxAux acc l := by
  induction l generalizing acc with
  | nil => exact le_refl _
  | cons y ys ih => exact le_trans (le_max_left acc y) (ih (max acc y))

theorem maxAux_append (acc : Int) (l : List Int) (a : Int) :
    maxAux acc (l ++ [a]) = max (maxAux acc l) a := by
  induction l generalizing acc with
  | nil => rfl
  | cons y ys ih => simpa [maxAux] using ih (max acc y)

theorem pyMaxD_snoc_succ (l : List Int) :
    pyMaxD (l ++ [pyMaxD l 0 + 1]) 0 = pyMaxD l 0 + 1 := by
  cases l with
  | nil => rfl
  | cons x xs =>
    show maxAux x (xs ++ [maxAux x xs + 1]) = maxAux x xs + 1
    rw [maxAux_append]
    exact max_eq_right (by omega)

/-- `renorm` never changes the id. -/
theorem renorm_id (t : Tool) : (renorm t).id = t.id := rfl

/-- The id assigned by a create. -/
theorem create_new_id (store : List Tool) (p : ToolCreate) :
    (admin_create_tool store p).2.id =
      pyMaxD (store.map (fun t => t.id)) 0 + 1 := rfl

/-- `save_tools` preserves the id sequence. -/
theorem save_tools_ids (l : List Tool) :
    (save_tools l).map (fun t => t.id) = l.map (fun t => t.id) := by
  unfold save_tools
  rw [List.map_map]
  exact List.map_congr_left fun t _ => rfl

/-- Ids of the store after a create: the old ids plus the fresh one. -/
theorem create_store_ids (store : List Tool) (p : ToolCreate) :
    ((admin_create_tool store p).1).map (fun t => t.id) =
      store.map (fun t => t.id) ++ [pyMaxD (store.map (fun t => t.id)) 0 + 1] := by
  unfold admin_create_tool
  rw [save_tools_ids]
  simp

theorem createManyIds_gt (store : List Tool) (ps : List ToolCreate) :
    ∀ j ∈ createManyIds store ps, pyMaxD (store.map (fun t => t.id)) 0 < j := by
  induction ps generalizing store with
  | nil => intro j hj; simp [createManyIds] at hj
  | cons p ps ih =>
    intro j hj
    simp only [createManyIds, List.mem_cons] at hj
    rcases hj with hj | hj
    · subst hj; rw [create_new_id]; omega
    · have h2 := ih (admin_create_tool store p).1 j hj
      rw [show ((admin_create_tool store p).1).map (fun t => t.id) =
          store.map (fun t => t.id) ++ [pyMaxD (store.map (fun t => t.id)) 0 + 1]
        from create_store_ids store p, pyMaxD_snoc_succ] at h2
      omega

theorem createManyIds_pairwise (store : List Tool) (ps : List ToolCreate) :
    (createManyIds store ps).Pairwise (fun a b => a ≠ b) := by
  induction ps generalizing store with
  | nil => exact List.Pairwise.nil
  | cons p ps ih =>
    refine List.Pairwise.cons ?_ (ih _)
    intro j hj
    have h2 := createManyIds_gt (admin_create_tool store p).1 ps j hj
    rw [create_store_ids store p, pyMaxD_snoc_succ] at h2
    rw [create_new_id]
    omega

/-! ### Claim theorems -/

/-- Claim C1, counterexample.  The claim says two concurrent creates against
an empty store never both receive id 1 because the lock is held across the
whole read-modify-write.  In the code the flock is taken only inside
`save_tools`, around the write: in the interleaving where both transactions
read before either writes, both are assigned id 1 and the second write
discards the first tool (lost update — the final file holds a single
record with id 1). -/
theorem create_race_both_receive_id_one :
    (runTx demoCreateA demoCreateB [.readA, .readB, .writeA, .writeB]).doneA = some 1 ∧
    (runTx demoCreateA demoCreateB [.readA, .readB, .writeA, .writeB]).doneB = some 1 ∧
    ((runTx demoCreateA demoCreateB [.readA, .readB, .writeA, .writeB]).file).map
      (fun t => t.id) = [1] :=
  ⟨rfl, rfl, rfl⟩

/-- Claim C1, amended: the exclusive lock is held only around the final
write inside `save_tools`, not across the read-modify-write sequence, so
write transactions are not serialized as whole transactions.  When the two
creates are fully serialized they receive distinct ids 1 and 2, but in the
interleaving where both read before either writes they both receive id 1
and one create is lost. -/
theorem create_lock_covers_write_only :
    ((runTx demoCreateA demoCreateB [.readA, .writeA, .readB, .writeB]).doneA = some 1 ∧
     (runTx demoCreateA demoCreateB [.readA, .writeA, .readB, .writeB]).doneB = some 2 ∧
     ((runTx demoCreateA demoCreateB [.readA, .writeA, .readB, .writeB]).file).map
       (fun t => t.id) = [1, 2]) ∧
    ((runTx demoCreateA demoCreateB [.readA, .readB, .writeA, .writeB]).doneA = some 1 ∧
     (runTx demoCreateA demoCreateB [.readA, .readB, .writeA, .writeB]).doneB = some 1 ∧
     ((runTx demoCreateA demoCreateB [.readA, .readB, .writeA, .writeB]).file).map
       (fun t => t.id) = [1]) :=
  ⟨⟨rfl, rfl, rfl⟩, ⟨rfl, rfl, rfl⟩⟩

/-- Claim C2, counterexample.  The claim says `normalize` never fails and a
non-numeric id defaults to 0.  On a record whose id is the string "abc" the
code evaluates `int("abc")`, which raises `ValueError` instead of
defaulting. -/
theorem normalize_raises_on_nonnumeric_id :
    normalize_tool [("id", .str "abc")] = .error .valueError := rfl

/-- Claim C2, amended: `normalize_tool` succeeds exactly when the Python
`int()` coercion of the id value (after the `or 0` falsy-to-zero step)
succeeds; every other field always degrades to a safe default.  A truthy
non-numeric id raises rather than defaulting to 0. -/
theorem normalize_total_except_id (raw : RawDict) :
    (∃ t, normalize_tool raw = .ok t) ↔
      ∃ n, pyInt (pyOr (rawGetD raw "id" (.int 0)) (.int 0)) = .ok n := by
  unfold normalize_tool
  cases hp : pyInt (pyOr (rawGetD raw "id" (.int 0)) (.int 0)) <;> simp [hp]

/-- Claim C3, counterexample.  The claim says a present primary key wins
even with an empty-string value.  On a record with `name = ""` and
`title = "X"` the code resolves the name to "X": the present-but-falsy
primary is skipped and the alias consulted. -/
theorem normalize_empty_name_falls_to_title :
    (normalize_tool [("name", .str ""), ("title", .str "X")] =
      .ok { id := 0, name := "X", description := "", category := "",
            pricing := "", tags := [], features := [], website := "",
            published := true }) ∧
    ("X" : String) ≠ "" :=
  ⟨rfl, by decide⟩

/-- Claim C3, amended: every aliased field of `normalize_tool` is resolved
by first-truthy-wins over its candidate list — a present primary key with a
falsy value (empty string, empty list, 0, false, None) is skipped and the
legacy alias is consulted; `published` ignores aliases and defaults to
true. -/
theorem normalize_resolves_first_truthy (raw : RawDict) (t : Tool)
    (h : normalize_tool raw = .ok t) :
    t.name = pyStrip (pyStrOf (firstTruthy
        [rawGet raw "name", rawGet raw "title"] (.str ""))) ∧
    t.description = pyStrip (pyStrOf (firstTruthy
        [rawGet raw "description", rawGet raw "short_desc"] (.str ""))) ∧
    t.category = pyStrip (pyStrOf (firstTruthy
        [rawGet raw "category", rawGet raw "type"] (.str ""))) ∧
    t.pricing = pyStrip (pyStrOf (firstTruthy
        [rawGet raw "pricing", rawGet raw "cost"] (.str ""))) ∧
    t.tags = coerce_str_list (firstTruthy
        [rawGet raw "tags", rawGet raw "keywords"] (.arr [])) ∧
    t.features = coerce_str_list (firstTruthy
        [rawGet raw "features", rawGet raw "capabilities"] (.arr [])) ∧
    t.website = pyStrip (pyStrOf (firstTruthy
        [rawGet raw "website", rawGet raw "url"] (.str ""))) ∧
    t.published = coerce_bool (rawGet raw "published") true := by
  unfold normalize_tool at h
  cases hp : pyInt (pyOr (rawGetD raw "id" (.int 0)) (.int 0)) with
  | error e => rw [hp] at h; exact absurd h (by simp)
  | ok n =>
    rw [hp] at h
    injection h with h
    subst h
    exact ⟨by rw [← pyOr_firstTruthy], by rw [← pyOr_firstTruthy],
      by rw [← pyOr_firstTruthy], by rw [← pyOr_firstTruthy],
      by rw [← pyOr_firstTruthy], by rw [← pyOr_firstTruthy],
      by rw [← pyOr_firstTruthy], rfl⟩

/-- Witness for the amended C3 theorem at a concrete input: a record
carrying only `title` resolves its name from the alias. -/
theorem normalize_resolves_first_truthy_witness :
    normalize_tool [("title", .str " X ")] =
      .ok { id := 0, name := "X", description := "", category := "",
            pricing := "", tags := [], features := [], website := "",
            published := true } ∧
    ({ id := 0, name := "X", description := "", category := "",
       pricing := "", tags := [], features := [], website := "",
       published := true } : Tool).name =
      pyStrip (pyStrOf (firstTruthy
        [rawGet [("title", .str " X ")] "name",
         rawGet [("title", .str " X ")] "title"] (.str ""))) :=
  ⟨rfl, (normalize_resolves_first_truthy [("title", .str " X ")] _ rfl).1⟩

/-- Claim C4: a create assigns `max(existing ids, default 0) + 1` — hence 1
on an empty store — and the ids handed out by any sequence of creates are
pairwise distinct. -/
theorem create_assigns_max_plus_one (store : List Tool) (p : ToolCreate)
    (ps : List ToolCreate) :
    (admin_create_tool store p).2.id = pyMaxD (store.map (fun t => t.id)) 0 + 1 ∧
    (admin_create_tool [] p).2.id = 1 ∧
    (createManyIds store ps).Pairwise (fun a b => a ≠ b) :=
  ⟨rfl, by rw [create_new_id]; decide, createManyIds_pairwise store ps⟩

/-- Claim C5: on a canonical store, an update supplying only `pricing`
keeps every other field of every record (including the matched one) equal
to its pre-update value, keeps the ids, and leaves records with a different
id wholly unchanged; the echoed record carries the requested id. -/
theorem update_pricing_frame (store : List Tool) (i : Int) (p : String)
    (hcanon : ∀ t ∈ store, renorm t = t) (store2 : List Tool) (echoed : Tool)
    (h : admin_update_tool store i { pricing := some p } = .ok (store2, echoed)) :
    List.Forall₂ (fun t t2 =>
      t2.id = t.id ∧ t2.name = t.name ∧ t2.description = t.description ∧
      t2.category = t.category ∧ t2.tags = t.tags ∧ t2.features = t.features ∧
      t2.website = t.website ∧ t2.published = t.published ∧
      (t.id ≠ i → t2 = t)) store store2 ∧ echoed.id = i := by
  induction store generalizing store2 echoed with
  | nil => simp [admin_update_tool, updateGo] at h
  | cons t rest ih =>
    cases ht : t.id == i with
    | true =>
      have hteq : t.id = i := by simpa using ht
      simp only [admin_update_tool, updateGo, ht, if_true] at h
      rw [Except.ok.injEq, Prod.mk.injEq] at h
      obtain ⟨h1, h2⟩ := h
      subst h1
      subst h2
      refine ⟨?_, hteq⟩
      show List.Forall₂ _ (t :: rest)
        (renorm (applyUpdate t { pricing := some p }) :: rest.map renorm)
      have hrest : rest.map renorm = rest :=
        List.map_congr_left (fun x hx => hcanon x (by simp [hx])) |>.trans
          (List.map_id rest)
      rw [hrest]
      refine List.Forall₂.cons ?_ ?_
      · have hname := congrArg Tool.name (hcanon t (by simp))
        have hdesc := congrArg Tool.description (hcanon t (by simp))
        have hcat := congrArg Tool.category (hcanon t (by simp))
        have htags := congrArg Tool.tags (hcanon t (by simp))
        have hfeat := congrArg Tool.features (hcanon t (by simp))
        have hweb := congrArg Tool.website (hcanon t (by simp))
        exact ⟨rfl, hname, hdesc, hcat, htags, hfeat, hweb, rfl,
          fun hne => absurd hteq hne⟩
      · rw [List.forall₂_same]
        intro x _
        exact ⟨rfl, rfl, rfl, rfl, rfl, rfl, rfl, rfl, fun _ => rfl⟩
    | false =>
      have htne : t.id ≠ i := by simpa using ht
      cases hrec : updateGo { pricing := some p } i rest with
      | none => simp [admin_update_tool, updateGo, ht, hrec] at h
      | some r =>
        simp only [admin_update_tool, updateGo, ht, Bool.false_eq_true,
          if_false, hrec] at h
        rw [Except.ok.injEq, Prod.mk.injEq] at h
        obtain ⟨h1, h2⟩ := h
        subst h1
        subst h2
        have hrec2 : admin_update_tool rest i { pricing := some p } =
            .ok (save_tools r.1, renorm r.2) := by
          simp [admin_update_tool, hrec]
        obtain ⟨hf, hid⟩ := ih (fun x hx => hcanon x (by simp [hx])) _ _ hrec2
        refine ⟨?_, hid⟩
        show List.Forall₂ _ (t :: rest) (renorm t :: save_tools r.1)
        rw [hcanon t (by simp)]
        exact List.Forall₂.cons
          ⟨rfl, rfl, rfl, rfl, rfl, rfl, rfl, rfl, fun _ => rfl⟩ hf

/-- Witness for the C5 theorem: updating only the pricing of the record
with id 2 in a concrete two-record store. -/
theorem update_pricing_frame_witness :
    (∀ t ∈ [toolFreePaid, toolPaidOnly], renorm t = t) ∧
    (List.Forall₂ (fun t t2 =>
      t2.id = t.id ∧ t2.name = t.name ∧ t2.description = t.description ∧
      t2.category = t.category ∧ t2.tags = t.tags ∧ t2.features = t.features ∧
      t2.website = t.website ∧ t2.published = t.published ∧
      (t.id ≠ 2 → t2 = t))
      [toolFreePaid, toolPaidOnly]
      [toolFreePaid, { toolPaidOnly with pricing := "Pro" }] ∧
     ({ toolPaidOnly with pricing := "Pro" } : Tool).id = 2) :=
  ⟨by decide, update_pricing_frame [toolFreePaid, toolPaidOnly] 2 " Pro "
    (by decide) _ _ rfl⟩

/-- Claim C6, counterexample.  The claim says a decode failure of the file
content never propagates an error to the caller.  The except clauses at
`main.py:78` and `main.py:81` catch only `json.JSONDecodeError` and
`OSError`; on a store file whose bytes are not valid UTF-8, `json.load`
raises `UnicodeDecodeError` — a `ValueError` that is neither of the two —
so the error propagates instead of degrading to the empty collection. -/
theorem read_tools_file_unicode_error_propagates :
    read_tools_file .unicodeDecodeError = .error .unicodeDecodeError ∧
    read_tools_file .unicodeDecodeError ≠ .ok [] :=
  ⟨rfl, fun h => Except.noConfusion h⟩

/-- Claim C6, amended: reading the backing file degrades to the empty
collection without propagating an error on an absent file, a JSON parse
failure (`json.JSONDecodeError`), an OS read failure (`OSError`) or a
decoded non-list, and returns the decoded list otherwise; but a
`UnicodeDecodeError` raised while decoding non-UTF-8 file bytes is caught
by neither except clause and propagates to the caller. -/
theorem read_tools_file_partially_tolerant :
    read_tools_file .absent = .ok [] ∧
    read_tools_file .jsonDecodeError = .ok [] ∧
    read_tools_file .osError = .ok [] ∧
    (∀ v : JVal, (∀ xs, v ≠ .arr xs) → read_tools_file (.ok v) = .ok []) ∧
    (∀ xs, read_tools_file (.ok (.arr xs)) = .ok xs) ∧
    read_tools_file .unicodeDecodeError = .error .unicodeDecodeError := by
  refine ⟨rfl, rfl, rfl, ?_, fun xs => rfl, rfl⟩
  intro v hv
  cases v with
  | arr xs => exact absurd rfl (hv xs)
  | null => rfl
  | bool b => rfl
  | int n => rfl
  | str s => rfl
  | obj kvs => rfl

/-- Witness for the amended C6 theorem: a decoded non-list (JSON null)
degrades to the empty collection. -/
theorem read_tools_file_partially_tolerant_witness :
    (∀ xs : List JVal, JVal.null ≠ JVal.arr xs) ∧
    read_tools_file (.ok .null) = .ok [] :=
  ⟨fun _ h => JVal.noConfusion h,
    read_tools_file_partially_tolerant.2.2.2.1 .null
      (fun _ h => JVal.noConfusion h)⟩

/-- Claim C7: with a nonempty pricing query, the public list returns
exactly the published records whose stored pricing contains the query
case-insensitively — the query inside the stored value, not the reverse:
"free" and "paid" both match a stored "free/paid", while "free" does not
match a stored "paid". -/
theorem pricing_filter_substring (q : String) (store : List Tool) (t : Tool)
    (hq : q ≠ "") :
    (t ∈ get_tools store none none (some q) ↔
      t ∈ store ∧ t.published = true ∧
        (pyLower q).data <:+: (pyLower t.pricing).data) ∧
    get_tools [toolFreePaid, toolPaidOnly] none none (some "free") =
      [toolFreePaid] ∧
    get_tools [toolFreePaid, toolPaidOnly] none none (some "paid") =
      [toolFreePaid, toolPaidOnly] ∧
    pricingMatch "free" toolPaidOnly = false := by
  refine ⟨?_, rfl, rfl, rfl⟩
  have hq' : (q == "") = false := beq_eq_false_iff_ne.mpr hq
  simp only [get_tools, applyIfTruthy, hq', Bool.false_eq_true, if_false]
  simp [List.mem_filter, get_published_tools, pricingMatch, pyInStr,
    and_assoc, and_comm, and_left_comm]

/-- Witness for the C7 theorem at query "free" over a one-record store. -/
theorem pricing_filter_substring_witness :
    ("free" : String) ≠ "" ∧
    (toolFreePaid ∈ get_tools [toolFreePaid] none none (some "free") ↔
      toolFreePaid ∈ [toolFreePaid] ∧ toolFreePaid.published = true ∧
        (pyLower "free").data <:+: (pyLower toolFreePaid.pricing).data) :=
  ⟨by decide, (pricing_filter_substring "free" [toolFreePaid] toolFreePaid
    (by decide)).1⟩

/-- Claim C8: a compare request whose id list fails integer parsing, or
parses to more than 3 ids, yields a 400 validation fault — never a
truncated result — and the outcome is independent of the store contents
(the fault is detected before the store is read). -/
theorem compare_validation_fault (ids : String) (store store2 : List Tool)
    (h : (∃ e, parseIds ids = .error e) ∨
      ∃ l, parseIds ids = .ok l ∧ 3 < l.length) :
    (∃ d, compare_tools ids store = .error ⟨400, d⟩) ∧
    compare_tools ids store = compare_tools ids store2 := by
  rcases h with ⟨e, he⟩ | ⟨l, hl, hlen⟩
  · exact ⟨⟨"Invalid tool IDs", by simp [compare_tools, he]⟩,
      by simp [compare_tools, he]⟩
  · exact ⟨⟨"Maximum 3 tools can be compared", by simp [compare_tools, hl, hlen]⟩,
      by simp [compare_tools, hl, hlen]⟩

/-- Witness for the C8 theorem: four comma-separated ids are rejected
identically on a nonempty and on an empty store. -/
theorem compare_validation_fault_witness :
    (parseIds "1,2,3,4" = .ok [1, 2, 3, 4] ∧
      3 < ([1, 2, 3, 4] : List Int).length) ∧
    ((∃ d, compare_tools "1,2,3,4" [toolFreePaid] = .error ⟨400, d⟩) ∧
     compare_tools "1,2,3,4" [toolFreePaid] = compare_tools "1,2,3,4" []) :=
  ⟨⟨rfl, by decide⟩, compare_validation_fault "1,2,3,4" [toolFreePaid] []
    (.inr ⟨[1, 2, 3, 4], rfl, by decide⟩)⟩

/-- Claim C9: `normalize_tool` is idempotent — feeding a successful output
(as the canonical dict it is stored as) back through `normalize_tool`
returns it unchanged. -/
theorem normalize_idempotent (raw : RawDict) (t : Tool)
    (h : normalize_tool raw = .ok t) :
    normalize_tool (Tool.toRaw t) = .ok t := by
  rw [normalize_tool_toRaw, renorm_fix_of_normalize raw t h]

/-- Witness for the C9 theorem on a concrete record needing trimming. -/
theorem normalize_idempotent_witness :
    normalize_tool [("name", .str " A "), ("tags", .str "x, ,y")] =
      .ok { id := 0, name := "A", description := "", category := "",
            pricing := "", tags := ["x", "y"], features := [], website := "",
            published := true } ∧
    normalize_tool (Tool.toRaw
      { id := 0, name := "A", description := "", category := "",
        pricing := "", tags := ["x", "y"], features := [], website := "",
        published := true }) =
      .ok { id := 0, name := "A", description := "", category := "",
            pricing := "", tags := ["x", "y"], features := [], website := "",
            published := true } :=
  ⟨rfl, normalize_idempotent [("name", .str " A "), ("tags", .str "x, ,y")] _ rfl⟩

/-- Claim C10: on a store with pairwise-distinct ids, a public
lookup of an id whose record is unpublished yields the same 404 as an
absent id — the published filter runs before the lookup. -/
theorem get_tool_unpublished_not_found (store : List Tool) (i : Int) (t : Tool)
    (huniq : store.Pairwise (fun a b => a.id ≠ b.id)) (ht : t ∈ store)
    (hid : t.id = i) (hpub : t.published = false) :
    get_tool store i = .error ⟨404, "Tool not found"⟩ := by
  have hnone : (get_published_tools store).find? (fun u => u.id == i) = none := by
    rw [List.find?_eq_none]
    intro u hu
    rw [get_published_tools, List.mem_filter] at hu
    intro huid
    have huid' : u.id = i := by simpa using huid
    have hsym : Symmetric (fun a b : Tool => a.id ≠ b.id) :=
      fun _ _ hab heq => hab heq.symm
    have hut : u = t := by
      by_contra hne
      exact huniq.forall hsym hu.1 ht hne (huid'.trans hid.symm)
    rw [hut] at hu
    rw [hpub] at hu
    exact Bool.false_ne_true hu.2
  simp [get_tool, hnone]

/-- Witness for the C10 theorem: a store holding only an unpublished record
with id 5 answers 404 for id 5. -/
theorem get_tool_unpublished_not_found_witness :
    ([toolHidden].Pairwise (fun a b => a.id ≠ b.id) ∧ toolHidden ∈ [toolHidden] ∧
      toolHidden.id = 5 ∧ toolHidden.published = false) ∧
    get_tool [toolHidden] 5 = .error ⟨404, "Tool not found"⟩ :=
  ⟨⟨by decide, by decide, by decide, by decide⟩,
    get_tool_unpublished_not_found [toolHidden] 5 toolHidden
      (by decide) (by decide) (by decide) (by decide)⟩

end FastAISearch
